import Mathlib

/-!
# L1Clone file-ingestion pipeline: shallow embedding and verification

This file embeds, in Lean 4, the file-ingestion and asynchronous-processing
pipeline of the L1Clone repository:

* `src/server/storage.ts` — the `MemStorage` record store (`createProcessedFile`,
  `updateFileStatus`) and the `ClickHouseStorage` anomaly listing
  (`execClickHouseQuery`, `getSampleAnomalies`, `getAnomalies`);
* the routes module (`registerRoutes`): multer upload configuration, file-type
  classification, size-threshold processor selection, the `setImmediate`
  processing block with its `close`-event handlers and `catch` handler.

JavaScript `Map`s become association lists, `undefined`-able parameters become
`Option`, and JavaScript control flow (`if`, `? :`, `||`, exceptions caught by
`try/catch`) is translated explicitly.  Machine arithmetic: the only
floating-point computation in the modelled code is `size / (1024*1024*1024)`
compared against `0.5`; for the byte sizes admitted by the upload pipeline
(at most 3 GiB < 2^53) both operands and the quotient are exactly
representable IEEE-754 doubles, so the computation is modelled exactly in `ℚ`.
-/

namespace L1Clone

/-! ## JavaScript helper semantics

`jsOrStr v d` models the JavaScript expression `v || d` for a possibly
`undefined` string `v` (both `undefined` and the empty string are falsy).
`jsOrNullNat v` models `v || null` for a possibly undefined number
(`0` is falsy, hence becomes `null`). -/

def jsOrStr (v : Option String) (dflt : String) : String :=
  match v with
  | some s => if s = "" then dflt else s
  | none => dflt

def jsOrNullNat (v : Option Nat) : Option Nat :=
  match v with
  | some 0 => none
  | some n => some n
  | none => none

def jsOrNullStr (v : Option String) : Option String :=
  match v with
  | some s => if s = "" then none else some s
  | none => none

/-! ## Data model: ProcessedFile records (storage.ts)

Fields as produced by `MemStorage.createProcessedFile` (storage.ts 187-200):
`id`, `filename`, `file_type` (a string, `'pcap'` or `'log'`), `file_size`,
`upload_date` (a timestamp, modelled as `Nat` milliseconds),
`processing_status` (a string: `'pending' | 'processing' | 'completed' |
'failed'`), `anomalies_found`, `processing_time` (nullable), `error_message`
(nullable). -/

structure ProcessedFile where
  id : String
  filename : String
  file_type : String
  file_size : Nat
  upload_date : Nat
  processing_status : String
  anomalies_found : Nat
  processing_time : Option Nat
  error_message : Option String
deriving DecidableEq, Repr

/-- The `processedFiles` JavaScript `Map<string, ProcessedFile>` of `MemStorage`,
modelled as an association list from ids to records. -/
abbrev FileStore : Type := List (String × ProcessedFile)

/-- `Map.get(id)`: the record stored under `id`, if any. -/
def getFile : FileStore → String → Option ProcessedFile
  | [], _ => none
  | (k, f) :: rest, id => if k = id then some f else getFile rest id

/-- `Map.set(id, f)`: replace the binding for `id` when present, otherwise add it. -/
def setFile : FileStore → String → ProcessedFile → FileStore
  | [], id, f => [(id, f)]
  | (k, g) :: rest, id, f =>
      if k = id then (k, f) :: rest else (k, g) :: setFile rest id f

/-- Insert payload accepted by `createProcessedFile` (storage.ts 187);
fields that the schema makes optional are `Option`s. -/
structure InsertProcessedFile where
  filename : String
  file_type : String
  file_size : Nat
  processing_status : Option String := none
  anomalies_found : Option Nat := none
  processing_time : Option Nat := none
  error_message : Option String := none
deriving DecidableEq, Repr

/-- `MemStorage.createProcessedFile` (storage.ts 187-200).  The generated
`randomUUID()` and `new Date()` are environment inputs, passed as `freshId`
and `uploadDate`.  Defaulting follows the source's `||` expressions:
`processing_status || 'pending'`, `anomalies_found || 0`,
`processing_time || null`, `error_message || null`. -/
def createProcessedFile (store : FileStore) (freshId : String) (uploadDate : Nat)
    (insertFile : InsertProcessedFile) : FileStore × ProcessedFile :=
  let file : ProcessedFile :=
    { id := freshId
      filename := insertFile.filename
      file_type := insertFile.file_type
      file_size := insertFile.file_size
      upload_date := uploadDate
      processing_status := jsOrStr insertFile.processing_status "pending"
      anomalies_found := insertFile.anomalies_found.getD 0
      processing_time := jsOrNullNat insertFile.processing_time
      error_message := jsOrNullStr insertFile.error_message }
  (setFile store freshId file, file)

/-- `MemStorage.updateFileStatus` (storage.ts 202-213).  If the record exists,
its `processing_status` is overwritten with `status` unconditionally, and each
of `anomalies_found` / `processing_time` / `error_message` is overwritten
exactly when the corresponding argument was passed (`!== undefined`); the
updated record is stored and returned.  If the record does not exist, the
store is unchanged and `undefined` is returned.  There is no check of the
record's current status anywhere in the function. -/
def updateFileStatus (store : FileStore) (id status : String)
    (anomaliesFound : Option Nat) (processingTime : Option Nat)
    (errorMessage : Option String) : FileStore × Option ProcessedFile :=
  match getFile store id with
  | some file =>
      let file' : ProcessedFile :=
        { file with
          processing_status := status
          anomalies_found := anomaliesFound.getD file.anomalies_found
          processing_time :=
            match processingTime with
            | some t => some t
            | none => file.processing_time
          error_message :=
            match errorMessage with
            | some m => some m
            | none => file.error_message }
      (setFile store id file', some file')
  | none => (store, none)

/-! ## Artifact classification (routes module, line 231) -/

/-- The file-type classification of the upload handler:
`originalname.endsWith('.pcap') || originalname.endsWith('.pcapng') ? 'pcap' : 'log'`. -/
def classifyFileType (originalname : String) : String :=
  if originalname.endsWith ".pcap" || originalname.endsWith ".pcapng" then "pcap" else "log"

/-! ## Size threshold and processor selection (routes module, lines 250-265) -/

/-- `const fileSizeGB = size / (1024 * 1024 * 1024)` — exact in `ℚ`; the
JavaScript double computation is exact for every size admitted by the upload
pipeline (≤ 3 GiB < 2^53: the operands and the quotient, a shift of the
binary exponent, are all representable). -/
def fileSizeGB (size : Nat) : ℚ :=
  (size : ℚ) / (1024 * 1024 * 1024)

/-- `fileSizeGB > 0.5`, the selector between the large and the standard pcap
processor. -/
def usesLargeProcessor (size : Nat) : Bool :=
  decide ((1 : ℚ) / 2 < fileSizeGB size)

/-- `const processorScript = fileSizeGB > 0.5 ? 'server/services/large_pcap_processor.py'
: 'server/services/pcap_processor.py'` (lines 253-255). -/
def pcapProcessorScript (size : Nat) : String :=
  if usesLargeProcessor size then "server/services/large_pcap_processor.py"
  else "server/services/pcap_processor.py"

/-- The argument vector built for the pcap analyzer spawn (lines 260-265):
the processor script (the `path.join(process.cwd(), ·)` prefix is elided — it
is the same script path), `--file-id`, the record id, `--filename`, the
original name, and, for large captures only, the spread
`['--chunk-size', '5000']`. -/
def pcapSpawnArgs (fileId originalname : String) (size : Nat) : List String :=
  [pcapProcessorScript size, "--file-id", fileId, "--filename", originalname] ++
    (if usesLargeProcessor size then ["--chunk-size", "5000"] else [])

/-! ## The asynchronous processing block (routes module, lines 243-307) -/

/-- The `anomaliesFound` accumulator of the `setImmediate` block:
`let anomaliesFound = 0;` (line 248).  No `stdout` listener is attached to
either analyzer process in the upload handler and the variable is never
reassigned, so it is the constant `0` when the close handlers read it. -/
def handlerAnomaliesFound : Nat := 0

/-- The shared logic of both `close`-event handlers (pcap path lines 273-279,
log path lines 294-301): with `processingTime = Date.now() - startTime`,
an exit code `=== 0` yields
`updateFileStatus(id, 'completed', anomaliesFound, processingTime)` and any
other exit code (including `null`) yields
`updateFileStatus(id, 'failed', 0, processingTime, 'Processing failed')`. -/
def onProcessClose (store : FileStore) (fileId : String) (code : Option Int)
    (anomaliesFound startTime now : Nat) : FileStore × Option ProcessedFile :=
  let processingTime := now - startTime
  if code = some 0 then
    updateFileStatus store fileId "completed" (some anomaliesFound) (some processingTime) none
  else
    updateFileStatus store fileId "failed" (some 0) (some processingTime) (some "Processing failed")

/-- The `catch` handler of the `setImmediate` block (lines 303-306):
`updateFileStatus(file.id, 'failed', 0, 0, error?.message || 'Unknown error')`. -/
def onProcessingError (store : FileStore) (fileId : String)
    (errMessage : Option String) : FileStore × Option ProcessedFile :=
  updateFileStatus store fileId "failed" (some 0) (some 0)
    (some (jsOrStr errMessage "Unknown error"))

/-! ## The multer upload middleware (routes module, lines 13-21) -/

/-- `limits: { fileSize: 3 * 1024 * 1024 * 1024 }` — the configured 3 GiB cap. -/
def multerFileSizeLimit : Nat := 3 * 1024 * 1024 * 1024

/-- Modelled from the spec: the enforcement of the configured
`limits.fileSize` happens inside the multer middleware (a dependency, not part
of the reviewed source).  Per the spec, "oversized uploads are rejected before
an Artifact is created": a file whose byte size exceeds the limit aborts the
request with a `LIMIT_FILE_SIZE` error before the route handler runs; a file
within the limit is accepted and handed to the handler. -/
def multerAccepts (size : Nat) : Bool :=
  decide (size ≤ multerFileSizeLimit)

/-- The `req.file` object produced by the configured
`multer.diskStorage({ destination: '/tmp', ... })` middleware: the bytes are
written to a temporary file at `path`; with disk storage no in-memory
`buffer` field is populated (`buffer` is `undefined`), which the model
records as `buffer = none`. -/
structure MulterFile where
  originalname : String
  size : Nat
  buffer : Option String
  path : String
deriving DecidableEq, Repr

/-- A `req.file` as delivered by the disk-storage multer configuration of this
module: `buffer` is absent. -/
def multerDiskFile (originalname : String) (size : Nat) (tempPath : String) : MulterFile :=
  { originalname := originalname, size := size, buffer := none, path := tempPath }

/-! ## The upload entry point (routes module, lines 224-241) -/

/-- Outcome of the upload entry point, up to and including the record
creation and the start of the detached processing block. -/
structure UploadOutcome where
  store : FileStore
  createdRecord : Option ProcessedFile
  analyzerSpawned : Bool
  accepted : Bool
deriving DecidableEq, Repr

/-- `POST /api/files/upload` (lines 224-241), composed with the multer gate:
an oversized upload is rejected before `createProcessedFile` runs (no record,
no spawn); an accepted upload is classified, a record is created with
`processing_status: 'pending'` and `anomalies_found: 0`, and the detached
`setImmediate` block (which spawns the analyzer on both the pcap and the log
path) is scheduled. -/
def handleFileUpload (store : FileStore) (freshId : String) (uploadDate : Nat)
    (file : MulterFile) : UploadOutcome :=
  if multerAccepts file.size then
    let fileType := classifyFileType file.originalname
    let created := createProcessedFile store freshId uploadDate
      { filename := file.originalname
        file_type := fileType
        file_size := file.size
        processing_status := some "pending"
        anomalies_found := some 0 }
    { store := created.1, createdRecord := some created.2
      analyzerSpawned := true, accepted := true }
  else
    { store := store, createdRecord := none
      analyzerSpawned := false, accepted := false }

/-! ## The pcap close handler with temp-file cleanup (lines 266-282) -/

/-- The import list of the routes module (lines 1-10): `express` (type only),
`http`, `./storage`, `@shared/schema`, `multer`, `ws`, `child_process`,
`path`, `ws` again, `./clickhouse.js`.  The `fs` module is not among them,
and the module declares no local binding named `fs`. -/
def moduleImports : List String :=
  ["express", "http", "./storage", "@shared/schema", "multer", "ws",
   "child_process", "path", "ws", "./clickhouse.js"]

/-- Whether the identifier `fs` is bound in the routes module's scope. -/
def fsImported : Bool := moduleImports.contains "fs"

/-- Result of one run of the pcap path's `close` callback, including the
attempted temp-file cleanup. -/
structure PcapCloseResult where
  store : FileStore
  updated : Option ProcessedFile
  tempFileDeleted : Bool
  thrownError : Option String
deriving DecidableEq, Repr

/-- The pcap path's `close` callback (lines 273-282): first the terminal
status update is awaited (`onProcessClose` with the constant accumulator
`handlerAnomaliesFound`), then `fs.unlinkSync(tempPath)` runs.  Since `fs` is
not bound in the module (`fsImported = false`), evaluating the identifier
throws `ReferenceError: fs is not defined` inside the callback and the
temporary file is not deleted; were `fs` imported, the unlink would run. -/
def pcapOnClose (store : FileStore) (fileId : String) (code : Option Int)
    (startTime now : Nat) : PcapCloseResult :=
  let r := onProcessClose store fileId code handlerAnomaliesFound startTime now
  if fsImported then
    { store := r.1, updated := r.2, tempFileDeleted := true, thrownError := none }
  else
    { store := r.1, updated := r.2, tempFileDeleted := false,
      thrownError := some "ReferenceError: fs is not defined" }

/-! ## The log path dispatch (lines 283-301) -/

/-- Observable effects of the log path's dispatch sequence. -/
structure LogDispatchResult where
  spawnArgs : List String
  stdinWritten : Option String
  stdinEnded : Bool
  closeHandlerRegistered : Bool
  thrownError : Option String
deriving DecidableEq, Repr

/-- The log path (lines 285-301): `spawn('python3', ['server/services/ue_analyzer.py',
'--file-id', file.id, '--filename', originalname])` (the `path.join` prefix
elided as for the pcap script), then `pythonProcess.stdin.write(buffer.toString())`,
`pythonProcess.stdin.end()`, and the registration of the `close` handler.
When `buffer` is `undefined` (the disk-storage case), evaluating
`buffer.toString()` throws a `TypeError` before anything is written, so the
write, the `end()`, and the handler registration never execute. -/
def dispatchLogAnalyzer (fileId originalname : String) (buffer : Option String) :
    LogDispatchResult :=
  let args := ["server/services/ue_analyzer.py", "--file-id", fileId,
               "--filename", originalname]
  match buffer with
  | some content =>
      { spawnArgs := args, stdinWritten := some content, stdinEnded := true,
        closeHandlerRegistered := true, thrownError := none }
  | none =>
      { spawnArgs := args, stdinWritten := none, stdinEnded := false,
        closeHandlerRegistered := false,
        thrownError := some "Cannot read properties of undefined (reading 'toString')" }

/-- The log branch of the `setImmediate` block together with the enclosing
`try/catch`: a throw during dispatch is caught and recorded through the
`catch` handler (`onProcessingError`); otherwise the store is untouched until
the `close` event fires. -/
def logPathRun (store : FileStore) (fileId : String) (file : MulterFile) :
    FileStore × LogDispatchResult :=
  let d := dispatchLogAnalyzer fileId file.originalname file.buffer
  match d.thrownError with
  | some msg => ((onProcessingError store fileId (some msg)).1, d)
  | none => (store, d)

/-! ## ClickHouseStorage anomaly listing (storage.ts 310-321, 339-407, 410-467) -/

/-- `v || null` for a possibly undefined rational (JavaScript `0` is falsy). -/
def jsOrNullRat (v : Option ℚ) : Option ℚ :=
  match v with
  | some q => if q = 0 then none else some q
  | none => none

/-- JavaScript truthiness of a possibly undefined string (used by
`if (type)` / `if (severity)`). -/
def jsTruthyStr (v : Option String) : Bool :=
  match v with
  | some s => s ≠ ""
  | none => false

/-- A row of the `l1_anomaly_detection.anomalies` ClickHouse table as consumed
by the mapping in `getAnomalies` (storage.ts 431-449); fields the mapping
guards with `||` or `?.` are `Option`s. -/
structure CHAnomalyRow where
  id : Option String
  timestamp : String
  anomaly_type : Option String
  description : Option String
  severity : Option String
  source_file : Option String
  packet_number : Option Nat
  status : Option String
  confidence_score : Option ℚ
  ml_algorithm_details : Option String
deriving DecidableEq, Repr

/-- An anomaly record in the shape `ClickHouseStorage.getAnomalies` returns
(storage.ts 431-449). -/
structure Anomaly where
  id : String
  timestamp : String
  type : String
  description : String
  severity : String
  source_file : String
  packet_number : Option Nat
  mac_address : Option String
  ue_id : Option String
  details : Option String
  status : String
  recommendation : Option String
  anomaly_type : Option String
  confidence_score : Option ℚ
  detection_algorithm : String
  context_data : Option String
deriving DecidableEq, Repr

/-- The per-row transformation of `getAnomalies`' success path
(storage.ts 431-449). -/
def mapCHRow (row : CHAnomalyRow) : Anomaly :=
  { id := jsOrStr row.id ""
    timestamp := row.timestamp
    type := jsOrStr row.anomaly_type "unknown"
    description := jsOrStr row.description ""
    severity := jsOrStr row.severity "medium"
    source_file := jsOrStr row.source_file ""
    packet_number := jsOrNullNat row.packet_number
    mac_address := none
    ue_id := none
    details := none
    status := jsOrStr row.status "open"
    recommendation := none
    anomaly_type := jsOrNullStr row.anomaly_type
    confidence_score := jsOrNullRat row.confidence_score
    detection_algorithm := "ml_ensemble"
    context_data := jsOrNullStr row.ml_algorithm_details }

/-- The query text built by `getAnomalies` (storage.ts 412-424): filter
clauses are appended only for truthy `type` / `severity` arguments. -/
def chAnomaliesQueryText (type severity : Option String) : String :=
  "SELECT * FROM l1_anomaly_detection.anomalies WHERE 1=1" ++
    (if jsTruthyStr type then " AND anomaly_type = ?" else "") ++
    (if jsTruthyStr severity then " AND severity = ?" else "") ++
    " ORDER BY timestamp DESC LIMIT ? OFFSET ?"

/-- `ClickHouseStorage.execClickHouseQuery` (storage.ts 310-321): the
underlying `clickhouse.query` call either resolves with rows or fails; a
failure is caught inside this helper, logged, and converted to `null`
("Return null instead of throwing error to allow fallback logic") — the
helper itself never throws.  The backing client's outcome is the
`queryOutcome` argument. -/
def execClickHouseQuery (queryOutcome : Except String (List CHAnomalyRow)) :
    Option (List CHAnomalyRow) :=
  match queryOutcome with
  | Except.ok rows => some rows
  | Except.error _ => none

/-- A canned sample record as built by `getSampleAnomalies`
(storage.ts 339-407). -/
structure SampleAnomaly where
  id : String
  timestamp : String
  type : String
  description : String
  severity : String
  source_file : String
  packet_number : Nat
  mac_address : String
  ue_id : Option String
  details : String
  status : String
deriving DecidableEq, Repr

/-- `ClickHouseStorage.getSampleAnomalies` (storage.ts 339-407): the five
canned sample records.  The nested `details` objects are carried as their
literal text. -/
def getSampleAnomalies : List SampleAnomaly :=
  [{ id := "1001"
     timestamp := "2025-08-05T17:45:30Z"
     type := "DU-RU Communication"
     description := "*** FRONTHAUL ISSUE BETWEEN DU TO RU *** - Missing RU Response Packets"
     severity := "high"
     source_file := "/analysis/fronthaul_capture_001.pcap"
     packet_number := 150
     mac_address := "00:11:22:33:44:67"
     ue_id := none
     details := "\x7b missing_responses: 5, communication_ratio: 0.65, latency_violations: 3 \x7d"
     status := "active" },
   { id := "1002"
     timestamp := "2025-08-05T17:46:15Z"
     type := "Timing Synchronization"
     description := "*** FRONTHAUL ISSUE BETWEEN DU TO RU *** - Ultra-Low Latency Violation (>100us)"
     severity := "critical"
     source_file := "/analysis/timing_sync_002.pcap"
     packet_number := 275
     mac_address := "00:11:22:33:44:67"
     ue_id := none
     details := "\x7b latency_measured: 150, threshold: 100, jitter: 25, packet_loss: 0.5 \x7d"
     status := "active" },
   { id := "2001"
     timestamp := "2025-08-05T17:48:20Z"
     type := "UE Event Pattern"
     description := "*** FRONTHAUL ISSUE BETWEEN DU TO RU *** - UE Attach Failure Pattern"
     severity := "critical"
     source_file := "/logs/ue_attach_events_001.txt"
     packet_number := 45
     mac_address := "00:11:22:33:44:67"
     ue_id := some "460110123456789"
     details := "\x7b failed_attaches: 8, success_rate: 0.12, context_failures: 5, timeout_events: 3 \x7d"
     status := "active" },
   { id := "2002"
     timestamp := "2025-08-05T17:49:45Z"
     type := "UE Mobility Issue"
     description := "*** FRONTHAUL ISSUE BETWEEN DU TO RU *** - Handover Failure Sequence"
     severity := "high"
     source_file := "/logs/mobility_events_002.txt"
     packet_number := 127
     mac_address := "00:11:22:33:44:67"
     ue_id := some "460110987654321"
     details := "\x7b handover_attempts: 4, successful_handovers: 1, signal_drops: 3 \x7d"
     status := "active" },
   { id := "3001"
     timestamp := "2025-08-05T17:51:33Z"
     type := "Protocol Violation"
     description := "*** FRONTHAUL ISSUE BETWEEN DU TO RU *** - Invalid Frame Structure"
     severity := "high"
     source_file := "/captures/protocol_errors_001.pcap"
     packet_number := 412
     mac_address := "00:11:22:33:44:67"
     ue_id := none
     details := "\x7b malformed_frames: 7, crc_errors: 2, sequence_violations: 5 \x7d"
     status := "active" }]

/-- The sample-data fallback computed by `getAnomalies`' `catch` block
(storage.ts 454-465): the canned records, filtered by truthy `type` and
`severity` and sliced `slice(offset, offset + limit)`. -/
def sampleFallbackAnomalies (limit offset : Nat) (type severity : Option String) :
    List SampleAnomaly :=
  let afterType :=
    if jsTruthyStr type then
      getSampleAnomalies.filter (fun a => a.type = type.getD "")
    else getSampleAnomalies
  let afterSeverity :=
    if jsTruthyStr severity then
      afterType.filter (fun a => a.severity = severity.getD "")
    else afterType
  (afterSeverity.drop offset).take limit

/-- `ClickHouseStorage.getAnomalies` (storage.ts 410-467).  The `try` body:
build the query, call `execClickHouseQuery`; if the result is an array, map
each row; otherwise `return result || []`, which for the `null` produced on a
query failure is the empty list.  No statement in the `try` body can throw
once `execClickHouseQuery` has swallowed the query error, so the `catch`
block holding the sample-data fallback is not reached on that path. -/
def chGetAnomalies (queryOutcome : Except String (List CHAnomalyRow))
    (limit offset : Nat) (type severity : Option String) : List Anomaly :=
  let _query := chAnomaliesQueryText type severity
  let _params := [limit, offset]
  match execClickHouseQuery queryOutcome with
  | some rows => rows.map mapCHRow
  | none => []

/-! ## Concrete runs used as witnesses and counterexamples -/

/-- A record already in the terminal `completed` state. -/
def exCompletedFile : ProcessedFile :=
  { id := "f1", filename := "trace1.pcap", file_type := "pcap",
    file_size := 104857600, upload_date := 1000,
    processing_status := "completed", anomalies_found := 0,
    processing_time := some 150, error_message := none }

/-- A store holding only the completed record `f1`. -/
def exStoreCompleted : FileStore := [("f1", exCompletedFile)]

/-- A record in the `processing` state, as left by the `begin` update. -/
def exProcessingFile : ProcessedFile :=
  { id := "f2", filename := "trace1.pcap", file_type := "pcap",
    file_size := 104857600, upload_date := 50,
    processing_status := "processing", anomalies_found := 0,
    processing_time := none, error_message := none }

/-- A store holding only the processing record `f2`. -/
def exStoreProcessing : FileStore := [("f2", exProcessingFile)]

/-- The store after a first terminal write: the analyzer for `f2` exited with
code 0 at time 250 having been dispatched at time 100. -/
def exStoreFinishedOnce : FileStore :=
  (onProcessClose exStoreProcessing "f2" (some 0) 0 100 250).1

/-- The store after a second terminal write for the same record, this time
with a nonzero exit code. -/
def exStoreFinishedTwice : FileStore :=
  (onProcessClose exStoreFinishedOnce "f2" (some 1) 0 100 300).1

/-- The store right after the upload of `session.log` (10 KiB): the record
`f4` was created with status `pending`. -/
def exLogStore : FileStore :=
  (createProcessedFile [] "f4" 2000
    { filename := "session.log", file_type := classifyFileType "session.log",
      file_size := 10240, processing_status := some "pending",
      anomalies_found := some 0 }).1

/-- The same store after the `setImmediate` block's first step,
`updateFileStatus(file.id, 'processing')`. -/
def exLogProcessingStore : FileStore :=
  (updateFileStatus exLogStore "f4" "processing" none none none).1

/-! ## Store lemmas -/

/-- Reading back the key just written by `setFile` yields the written record. -/
theorem getFile_setFile_self (store : FileStore) (id : String) (f : ProcessedFile) :
    getFile (setFile store id f) id = some f := by
  induction store with
  | nil => simp [setFile, getFile]
  | cons hd tl ih =>
      obtain ⟨k, g⟩ := hd
      by_cases h : k = id
      · simp [setFile, getFile, h]
      · simp [setFile, getFile, h, ih]

/-! ## C1 — status transitions of `updateFileStatus` -/

/-- C1 counterexample: `updateFileStatus` does move a record backward.  For
the concrete store holding record `f1` in the terminal `completed` state, the
call `updateFileStatus(store, 'f1', 'pending')` stores status `pending` —
the transition completed → pending, which the claim says never happens. -/
theorem updateFileStatus_backward_transition_cex :
    (getFile exStoreCompleted "f1").map ProcessedFile.processing_status =
      some "completed" ∧
    (getFile (updateFileStatus exStoreCompleted "f1" "pending" none none none).1
        "f1").map ProcessedFile.processing_status = some "pending" := by
  decide

/-- C1 (amended): `updateFileStatus` enforces no transition discipline at
all — whenever the record exists it overwrites `processing_status` with the
requested status unconditionally, whatever the record's current status
(in particular a completed or failed record can be moved back to `pending`
or `processing`); the pending → processing → ⟨completed, failed⟩ chain holds
only by the upload handler's calling order. -/
theorem updateFileStatus_sets_requested_status
    (store : FileStore) (id status : String)
    (anomaliesFound processingTime : Option Nat) (errorMessage : Option String)
    (f : ProcessedFile) (hf : getFile store id = some f) :
    ((updateFileStatus store id status anomaliesFound processingTime errorMessage).2.map
        ProcessedFile.processing_status = some status) ∧
    ((getFile (updateFileStatus store id status anomaliesFound processingTime
        errorMessage).1 id).map ProcessedFile.processing_status = some status) := by
  simp [updateFileStatus, hf, getFile_setFile_self]

/-- C1 witness: the amended theorem applied at the completed record `f1` and
requested status `pending`. -/
theorem updateFileStatus_sets_requested_status_witness :
    ((updateFileStatus exStoreCompleted "f1" "pending" none none none).2.map
        ProcessedFile.processing_status = some "pending") ∧
    ((getFile (updateFileStatus exStoreCompleted "f1" "pending" none none none).1
        "f1").map ProcessedFile.processing_status = some "pending") :=
  updateFileStatus_sets_requested_status exStoreCompleted "f1" "pending"
    none none none exCompletedFile (by decide)

/-! ## C2 — terminal outcomes of the reconciler -/

/-- C2: for a record present in the store, the `close` handler with exit code
zero stores `completed` with `anomaliesFound` and the elapsed duration
`now - startTime`; any nonzero exit code stores `failed` with the elapsed
duration and the detail `"Processing failed"`; and a throw during dispatch
with a nonempty message stores `failed` with that message as detail. -/
theorem reconciler_terminal_outcomes
    (store : FileStore) (id : String) (anomaliesFound startTime now : Nat)
    (c : Int) (msg : String) (f : ProcessedFile)
    (hf : getFile store id = some f) (hc : c ≠ 0) (hm : msg ≠ "") :
    ((onProcessClose store id (some 0) anomaliesFound startTime now).2.map
        (fun g => (g.processing_status, g.anomalies_found, g.processing_time)) =
      some ("completed", anomaliesFound, some (now - startTime))) ∧
    ((onProcessClose store id (some c) anomaliesFound startTime now).2.map
        (fun g => (g.processing_status, g.anomalies_found, g.processing_time,
                   g.error_message)) =
      some ("failed", 0, some (now - startTime), some "Processing failed")) ∧
    ((onProcessingError store id (some msg)).2.map
        (fun g => (g.processing_status, g.anomalies_found, g.processing_time,
                   g.error_message)) =
      some ("failed", 0, some 0, some msg)) := by
  refine ⟨?_, ?_, ?_⟩ <;>
    simp [onProcessClose, onProcessingError, updateFileStatus, hf, jsOrStr, hc, hm]

/-- C2 witness: the theorem applied to the processing record `f2`, dispatch
time 100, exit time 250, nonzero code 1, and the dispatch-error message
`"spawn python3 ENOENT"`. -/
theorem reconciler_terminal_outcomes_witness :
    ((onProcessClose exStoreProcessing "f2" (some 0) 0 100 250).2.map
        (fun g => (g.processing_status, g.anomalies_found, g.processing_time)) =
      some ("completed", 0, some 150)) ∧
    ((onProcessClose exStoreProcessing "f2" (some 1) 0 100 250).2.map
        (fun g => (g.processing_status, g.anomalies_found, g.processing_time,
                   g.error_message)) =
      some ("failed", 0, some 150, some "Processing failed")) ∧
    ((onProcessingError exStoreProcessing "f2" (some "spawn python3 ENOENT")).2.map
        (fun g => (g.processing_status, g.anomalies_found, g.processing_time,
                   g.error_message)) =
      some ("failed", 0, some 0, some "spawn python3 ENOENT")) :=
  reconciler_terminal_outcomes exStoreProcessing "f2" 0 100 250 1
    "spawn python3 ENOENT" exProcessingFile (by decide) (by decide) (by decide)

/-! ## C3 — a second terminal write is not a no-op -/

/-- C3 counterexample: after the first finish (exit 0) record `f2` is
`completed`; a second finish (exit 1) changes the stored record to `failed` —
the state after the second call differs from the state after the first, so
recording a terminal outcome is not first-write-wins. -/
theorem second_finish_overwrites_cex :
    (getFile exStoreFinishedOnce "f2").map ProcessedFile.processing_status =
      some "completed" ∧
    (getFile exStoreFinishedTwice "f2").map ProcessedFile.processing_status =
      some "failed" ∧
    getFile exStoreFinishedTwice "f2" ≠ getFile exStoreFinishedOnce "f2" := by
  decide

/-- C3 (amended): a second terminal `updateFileStatus` for the same artifact
overwrites the stored record — last write wins: after two consecutive
terminal updates the stored record carries the second call's status,
anomaly count and duration, whichever outcome the second call carries. -/
theorem updateFileStatus_last_write_wins
    (store : FileStore) (id : String) (st1 st2 : String) (a1 t1 a2 t2 : Nat)
    (e1 e2 : Option String) (f : ProcessedFile)
    (hf : getFile store id = some f) :
    (getFile (updateFileStatus
        (updateFileStatus store id st1 (some a1) (some t1) e1).1
        id st2 (some a2) (some t2) e2).1 id).map
      (fun g => (g.processing_status, g.anomalies_found, g.processing_time)) =
      some (st2, a2, some t2) := by
  simp [updateFileStatus, hf, getFile_setFile_self]

/-- C3 witness: the amended theorem applied to the processing record `f2`
with a `completed` first write and a `failed` second write. -/
theorem updateFileStatus_last_write_wins_witness :
    (getFile (updateFileStatus
        (updateFileStatus exStoreProcessing "f2" "completed" (some 0) (some 150) none).1
        "f2" "failed" (some 0) (some 200) (some "Processing failed")).1 "f2").map
      (fun g => (g.processing_status, g.anomalies_found, g.processing_time)) =
      some ("failed", 0, some 200) :=
  updateFileStatus_last_write_wins exStoreProcessing "f2" "completed" "failed"
    0 150 0 200 none (some "Processing failed") exProcessingFile (by decide)

/-! ## C4 — classification is total and deterministic -/

/-- C4: classification is a total function of the filename: it returns
`'pcap'` exactly for names ending in `.pcap` or `.pcapng`, `'log'` for every
other name, and never anything else (no input is rejected; determinism is
function application). -/
theorem classifyFileType_total_capture_iff (originalname : String) :
    (classifyFileType originalname = "pcap" ↔
      (originalname.endsWith ".pcap" = true ∨
       originalname.endsWith ".pcapng" = true)) ∧
    (classifyFileType originalname = "pcap" ∨
     classifyFileType originalname = "log") := by
  unfold classifyFileType
  cases h1 : originalname.endsWith ".pcap" <;>
    cases h2 : originalname.endsWith ".pcapng" <;> simp [h1, h2]

/-! ## C5 — the 0.5 GiB processor-selection threshold -/

/-- Every byte size of at least 0.5 GiB + 1 makes `fileSizeGB` exceed 0.5. -/
theorem usesLargeProcessor_eq_true_of_le (s : Nat) (h : 536870913 ≤ s) :
    usesLargeProcessor s = true := by
  have hs : (536870913 : ℚ) ≤ (s : ℚ) := by exact_mod_cast h
  have hlt : (1 : ℚ) / 2 < fileSizeGB s := by
    unfold fileSizeGB
    rw [div_lt_div_iff₀ (by norm_num) (by norm_num)]
    linarith
  exact decide_eq_true hlt

/-- C5: a capture of exactly 0.5 GiB (536870912 bytes) selects the standard
processor and its spawn arguments carry no chunk-size parameter; every size
of 0.5 GiB + 1 byte or more selects the large processor with the explicit
arguments `--chunk-size 5000`. -/
theorem pcap_profile_threshold (fileId originalname : String) :
    (usesLargeProcessor 536870912 = false ∧
      pcapSpawnArgs fileId originalname 536870912 =
        ["server/services/pcap_processor.py", "--file-id", fileId,
         "--filename", originalname]) ∧
    (∀ s : Nat, 536870913 ≤ s →
      usesLargeProcessor s = true ∧
      pcapSpawnArgs fileId originalname s =
        ["server/services/large_pcap_processor.py", "--file-id", fileId,
         "--filename", originalname, "--chunk-size", "5000"]) := by
  have hb : usesLargeProcessor 536870912 = false := by
    have heq : fileSizeGB 536870912 = 1 / 2 := by
      unfold fileSizeGB; norm_num
    exact decide_eq_false (by rw [heq]; exact lt_irrefl _)
  refine ⟨⟨hb, by simp [pcapSpawnArgs, pcapProcessorScript, hb]⟩, ?_⟩
  intro s hs
  have hl := usesLargeProcessor_eq_true_of_le s hs
  exact ⟨hl, by simp [pcapSpawnArgs, pcapProcessorScript, hl]⟩

/-- C5 witness: the theorem applied at 536870913 bytes (0.5 GiB + 1). -/
theorem pcap_profile_threshold_witness :
    usesLargeProcessor 536870913 = true ∧
    pcapSpawnArgs "abc123" "bulk.pcapng" 536870913 =
      ["server/services/large_pcap_processor.py", "--file-id", "abc123",
       "--filename", "bulk.pcapng", "--chunk-size", "5000"] :=
  (pcap_profile_threshold "abc123" "bulk.pcapng").2 536870913 (by norm_num)

/-! ## C6 — oversized uploads are rejected with no side effect -/

/-- C6: an upload whose byte size exceeds the 3 GiB limit is rejected before
any record is created: the store is returned unchanged, no record is created,
and no analyzer is spawned. -/
theorem oversized_upload_rejected
    (store : FileStore) (freshId : String) (uploadDate : Nat) (file : MulterFile)
    (h : multerFileSizeLimit < file.size) :
    (handleFileUpload store freshId uploadDate file).store = store ∧
    (handleFileUpload store freshId uploadDate file).createdRecord = none ∧
    (handleFileUpload store freshId uploadDate file).analyzerSpawned = false := by
  have hacc : multerAccepts file.size = false :=
    decide_eq_false (Nat.not_le.mpr h)
  refine ⟨?_, ?_, ?_⟩ <;> simp [handleFileUpload, hacc]

/-- C6 witness: the theorem applied to a 3-GiB-plus-one-byte upload against
the empty store. -/
theorem oversized_upload_rejected_witness :
    (handleFileUpload [] "u1" 0
        (multerDiskFile "huge.pcap" 3221225473 "/tmp/1-huge.pcap")).store = [] ∧
    (handleFileUpload [] "u1" 0
        (multerDiskFile "huge.pcap" 3221225473 "/tmp/1-huge.pcap")).createdRecord =
      none ∧
    (handleFileUpload [] "u1" 0
        (multerDiskFile "huge.pcap" 3221225473 "/tmp/1-huge.pcap")).analyzerSpawned =
      false :=
  oversized_upload_rejected [] "u1" 0
    (multerDiskFile "huge.pcap" 3221225473 "/tmp/1-huge.pcap") (by decide)

/-! ## C7 — the temp-file cleanup never runs -/

/-- C7: on every run of the pcap path's `close` callback — success and
failure alike — the temporary file is not deleted and a
`ReferenceError: fs is not defined` is thrown, because the routes module
never imports `fs`.  The claim's guaranteed cleanup does not happen. -/
theorem pcap_cleanup_never_runs (store : FileStore) (fileId : String)
    (code : Option Int) (startTime now : Nat) :
    (pcapOnClose store fileId code startTime now).tempFileDeleted = false ∧
    (pcapOnClose store fileId code startTime now).thrownError =
      some "ReferenceError: fs is not defined" := by
  have hfs : fsImported = false := by decide
  constructor <;> simp [pcapOnClose, hfs]

/-! ## C8 — the log path never writes the artifact's bytes to stdin -/

/-- C8: for the log upload `session.log` (10 KiB) staged by the disk-storage
multer configuration, the dispatcher does spawn the log analyzer with the
identifier and display-name arguments, but `req.file.buffer` is absent, so
`buffer.toString()` throws before anything is written: stdin receives no
bytes and is never closed, no `close` handler is registered, and the `catch`
marks the record failed with the `TypeError` message. -/
theorem log_dispatch_stdin_never_written :
    (logPathRun exLogProcessingStore "f4"
        (multerDiskFile "session.log" 10240 "/tmp/999-session.log")).2.spawnArgs =
      ["server/services/ue_analyzer.py", "--file-id", "f4",
       "--filename", "session.log"] ∧
    (logPathRun exLogProcessingStore "f4"
        (multerDiskFile "session.log" 10240 "/tmp/999-session.log")).2.stdinWritten =
      none ∧
    (logPathRun exLogProcessingStore "f4"
        (multerDiskFile "session.log" 10240 "/tmp/999-session.log")).2.stdinEnded =
      false ∧
    (logPathRun exLogProcessingStore "f4"
        (multerDiskFile "session.log" 10240
          "/tmp/999-session.log")).2.closeHandlerRegistered = false ∧
    (getFile (logPathRun exLogProcessingStore "f4"
        (multerDiskFile "session.log" 10240 "/tmp/999-session.log")).1 "f4").map
      (fun g => (g.processing_status, g.error_message)) =
      some ("failed",
        some "Cannot read properties of undefined (reading 'toString')") := by
  decide

/-! ## C9 — unreachable analytics store yields the empty list, not samples -/

/-- C9: when the backing query fails, `getAnomalies` returns the empty list
for every limit, offset and filter — not the canned sample data: the error is
swallowed inside `execClickHouseQuery` (which returns `null`), so the
sample-data `catch` block never runs; the sample fallback it would have
computed is nonempty. -/
theorem getAnomalies_unreachable_returns_empty :
    (∀ (e : String) (limit offset : Nat) (type severity : Option String),
        chGetAnomalies (Except.error e) limit offset type severity = []) ∧
    sampleFallbackAnomalies 50 0 none none = getSampleAnomalies ∧
    getSampleAnomalies ≠ [] := by
  refine ⟨fun e limit offset type severity => rfl, by decide, by decide⟩

/-! ## C10 — the anomaly accumulator is the constant zero -/

/-- C10: the handler's anomaly accumulator is initialized to 0 and never
updated, so a zero exit code always stores `anomalies_found = 0` for an
existing record, regardless of anything the analyzer emitted. -/
theorem completed_update_anomalies_zero
    (store : FileStore) (id : String) (startTime now : Nat) (f : ProcessedFile)
    (hf : getFile store id = some f) :
    handlerAnomaliesFound = 0 ∧
    ((onProcessClose store id (some 0) handlerAnomaliesFound startTime now).2.map
        (fun g => g.anomalies_found)) = some 0 := by
  refine ⟨rfl, ?_⟩
  simp [onProcessClose, updateFileStatus, hf, handlerAnomaliesFound]

/-- C10 witness: the theorem applied to the processing record `f2`. -/
theorem completed_update_anomalies_zero_witness :
    handlerAnomaliesFound = 0 ∧
    ((onProcessClose exStoreProcessing "f2" (some 0) handlerAnomaliesFound
        100 250).2.map (fun g => g.anomalies_found)) = some 0 :=
  completed_update_anomalies_zero exStoreProcessing "f2" 100 250
    exProcessingFile (by decide)

end L1Clone
